import Mathlib

/-!
Shallow embedding of the synchronization and caching engine of the
aktuellabrott-se repository (DataSyncManager in the sync-manager module,
DataStorage / CrimeSeveritySystem / Utils / PoliceEventsApp in js/app.js,
and the service worker sw.js), together with proofs and refutations of the
spec's testable properties.

JS machine conventions used throughout: strings are Lean `String`s, times
are non-negative integer milliseconds (`Nat`; `Int` where values may mix
signs), JS `||` defaulting on possibly-absent or empty strings is modelled
explicitly, and host functions (the `Date` parser, id generation, `fetch`)
are parameters of the definitions that call them.
-/

/-- JS `hay.includes(needle)`: substring containment. -/
def jsIncludes (hay needle : String) : Bool :=
  decide (needle.toList <:+: hay.toList)

/-- JS `s.toLowerCase()`, modelled character-wise with `Char.toLower`
(which agrees with JS on ASCII; the non-ASCII letters of the Swedish
keyword tables are already lowercase where the source compares them). -/
def jsToLower (s : String) : String :=
  ⟨s.toList.map Char.toLower⟩

/-- JS `a || b` where `a` may be absent (`undefined`/`null`) or the empty
string (both falsy). -/
def jsOrS (a : Option String) (b : String) : String :=
  match a with
  | none => b
  | some s => if s = "" then b else s

namespace DataSyncManager

/-- The three synchronized data classes of `this.syncConfig`. -/
inductive SyncType where
  | events
  | stations
  | rss
deriving DecidableEq, Repr

/-- One entry of `this.syncConfig`. -/
structure TypeConfig where
  interval : Nat
  passiveInterval : Nat
  deltaSync : Bool
  priority : String
deriving DecidableEq, Repr

/-- Source: `this.syncConfig` from the DataSyncManager constructor. -/
def syncConfig : SyncType → TypeConfig
  | .events => ⟨5 * 60 * 1000, 15 * 60 * 1000, true, "high"⟩
  | .stations => ⟨6 * 60 * 60 * 1000, 24 * 60 * 60 * 1000, false, "low"⟩
  | .rss => ⟨10 * 60 * 1000, 30 * 60 * 1000, true, "medium"⟩

/-- Source: `this.retryConfig` from the DataSyncManager constructor. -/
structure RetryConfig where
  maxRetries : Nat
  baseDelay : Nat
  maxDelay : Nat
deriving DecidableEq, Repr

def retryConfig : RetryConfig := ⟨3, 1000, 30000⟩

/-- The interval `schedulePeriodicSync` installs for a type:
`document.hidden ? config.passiveInterval : config.interval`. -/
def effectiveInterval (t : SyncType) (hidden : Bool) : Nat :=
  if hidden then (syncConfig t).passiveInterval else (syncConfig t).interval

/-- A severity record `{ level, priority, color }` as produced by
`calculateSeverity`. -/
structure SeverityInfo where
  level : Nat
  priority : String
  color : String
deriving DecidableEq, Repr

/-- The `severityMap` object literal inside `calculateSeverity`
(property lookup; the key `"default"` is an ordinary key of the object). -/
def severityMapLookup (t : String) : Option SeverityInfo :=
  if t = "Olycka" then some ⟨3, "high", "#dc2626"⟩
  else if t = "Brand" then some ⟨4, "critical", "#b91c1c"⟩
  else if t = "Rån" then some ⟨4, "critical", "#991b1b"⟩
  else if t = "Våld" then some ⟨4, "critical", "#7f1d1d"⟩
  else if t = "Skottlossning" then some ⟨5, "critical", "#450a0a"⟩
  else if t = "Trafikolycka" then some ⟨2, "medium", "#ea580c"⟩
  else if t = "Misshandel" then some ⟨3, "high", "#c2410c"⟩
  else if t = "Stöld" then some ⟨2, "medium", "#a3a3a3"⟩
  else if t = "default" then some ⟨1, "low", "#6b7280"⟩
  else none

/-- Source: `severityMap.default`. -/
def severityDefault : SeverityInfo := ⟨1, "low", "#6b7280"⟩

/-- Source: `criticalKeywords` in `calculateSeverity`. -/
def criticalKeywords : List String :=
  ["skott", "död", "livsfara", "explosion", "gisslan"]

/-- Source: `highKeywords` in `calculateSeverity`. -/
def highKeywords : List String :=
  ["våld", "kniv", "hot", "misshandel"]

/-- Source: `DataSyncManager.calculateSeverity(type, title)`.  The keyword scans run
over `title.toLowerCase()` only; the table lookup uses the raw `type`.
-/
def calculateSeverity (t : String) (title : String) : SeverityInfo :=
  let lowerTitle := jsToLower title
  if criticalKeywords.any (fun kw => jsIncludes lowerTitle kw) then
    ⟨5, "critical", "#450a0a"⟩
  else if highKeywords.any (fun kw => jsIncludes lowerTitle kw) then
    ⟨4, "critical", "#7f1d1d"⟩
  else
    (severityMapLookup t).getD severityDefault

/-- Retry delay for attempt `n` (attempts start at 1):
`Math.min(baseDelay * Math.pow(2, attempt - 1), maxDelay)`. -/
def retryDelay (cfg : RetryConfig) (attempt : Nat) : Nat :=
  min (cfg.baseDelay * 2 ^ (attempt - 1)) cfg.maxDelay

/-- Source: `DataSyncManager.scheduleRetry`: `none` when the attempt counter has
exceeded `maxRetries` (cycle abandoned), otherwise the delay scheduled
before the retry fires. -/
def scheduleRetry (cfg : RetryConfig) (attempt : Nat) : Option Nat :=
  if attempt > cfg.maxRetries then none else some (retryDelay cfg attempt)

/-- The chain of delays `scheduleRetry` schedules from attempt `attempt`
onward when `failing n` says whether retry attempt `n` fails again (the
`catch` inside the scheduled timeout recursing with `attempt + 1`).
`fuel` is a structural bound; `maxRetries + 1 - attempt` steps always
suffice because the recursion stops once `attempt > maxRetries`. -/
def scheduleRetryRunAux (cfg : RetryConfig) (failing : Nat → Bool) :
    Nat → Nat → List Nat
  | _, 0 => []
  | attempt, fuel + 1 =>
    if attempt > cfg.maxRetries then []
    else
      let d := retryDelay cfg attempt
      if failing attempt then d :: scheduleRetryRunAux cfg failing (attempt + 1) fuel
      else [d]

/-- Delays scheduled by a full retry cycle started at attempt 1. -/
def scheduleRetryRun (cfg : RetryConfig) (failing : Nat → Bool) : List Nat :=
  scheduleRetryRunAux cfg failing 1 (cfg.maxRetries + 1)

/-- A raw item of the remote events collection, with the fields
`processEventData` reads (`location.name`, city/address extraction and the
raw passthrough fields are omitted: no statement below depends on them). -/
structure RawEvent where
  id : Option Nat
  datetime : String
  name : Option String
  summary : Option String
  eventType : Option String
  gps : Option String
deriving DecidableEq, Repr

/-- The processed record built by `processEventData` (again restricted to
the fields the statements below touch). -/
structure ProcessedEvent where
  id : String
  timestamp : String
  timeMs : Int
  title : String
  description : String
  eventType : String
  lat : String
  lng : String
  exactLocation : Bool
  severityInfo : SeverityInfo
deriving DecidableEq, Repr

/-- Source: `rawEvent.location?.gps?.split(',')[i]?.trim() || 0` for `i = 0, 1`:
the JS number `0` default renders as the string `"0"` inside the
deduplication key template. -/
def gpsPart (gps : Option String) (i : Nat) : String :=
  match gps with
  | none => "0"
  | some g =>
    match (g.splitOn ",").get? i with
    | none => "0"
    | some s => if s.trim = "" then "0" else s.trim

/-- Source: `DataSyncManager.processEventData(rawEvent)`.  `parseDate` models the
host `new Date(s).getTime()`, `generateId` models the id fallback
`Utils.generateId(rawEvent.name + rawEvent.datetime)`. -/
def processEventData (parseDate : String → Int) (generateId : String → String)
    (raw : RawEvent) : ProcessedEvent :=
  { id :=
      match raw.id with
      | some i => toString i
      | none => generateId ((raw.name).getD "undefined" ++ raw.datetime)
    timestamp := raw.datetime
    timeMs := parseDate raw.datetime
    title := jsOrS raw.name "Okänd händelse"
    description := jsOrS raw.summary ""
    eventType := jsOrS raw.eventType "Övrigt"
    lat := gpsPart raw.gps 0
    lng := gpsPart raw.gps 1
    exactLocation :=
      match raw.gps with
      | none => false
      | some g => g ≠ ""
    severityInfo :=
      calculateSeverity ((raw.eventType).getD "") ((raw.name).getD "") }

/-- The composite deduplication key:
`` `${event.timestamp}-${event.title}-${event.lat}-${event.lng}` ``. -/
def eventKey (e : ProcessedEvent) : String :=
  e.timestamp ++ "-" ++ e.title ++ "-" ++ e.lat ++ "-" ++ e.lng

/-- The `events.filter` loop of `deduplicateEvents`, with `seen` the set of
keys inserted into the `Map` so far. -/
def dedupAux (seen : List String) : List ProcessedEvent → List ProcessedEvent
  | [] => []
  | e :: es =>
    if eventKey e ∈ seen then dedupAux seen es
    else e :: dedupAux (eventKey e :: seen) es

/-- Source: `DataSyncManager.deduplicateEvents(events)`. -/
def deduplicateEvents (events : List ProcessedEvent) : List ProcessedEvent :=
  dedupAux [] events

/-- The processing pipeline of `DataSyncManager.syncEvents` applied to the
fetched collection: client-side delta filter (only when a positive
`sinceTimestamp` was passed), per-record processing, deduplication.  No
sorting and no size cap are applied on this path. -/
def syncEventsProcess (parseDate : String → Int) (generateId : String → String)
    (sinceTimestamp : Int) (rawEvents : List RawEvent) : List ProcessedEvent :=
  let filteredEvents :=
    if sinceTimestamp > 0 then
      rawEvents.filter (fun e => parseDate e.datetime > sinceTimestamp)
    else rawEvents
  deduplicateEvents (filteredEvents.map (processEventData parseDate generateId))

end DataSyncManager

namespace DataStorage

/-- A record of the IndexedDB `events`/`stations` object stores, restricted
to the fields the read path and the retention sweep consult (`saveEvents`
stores many more, all irrelevant to the statements below).  `cached` is the
`Date.now()` stamp written by `saveEvents`/`saveStations`; JS treats
`record.cached` as falsy when it is `0` or absent, which we encode as
`cached = 0`. -/
structure StoredRecord where
  id : String
  timeMs : Int
  cached : Nat
deriving DecidableEq, Repr

/-- Source: `CONFIG.STORAGE.CACHE_DURATION` (ms). -/
def CACHE_DURATION_EVENTS : Nat := 2 * 60 * 60 * 1000

def CACHE_DURATION_STATIONS : Nat := 24 * 60 * 60 * 1000

/-- The fixed retention ceiling of `DataStorage.cleanup` (7 days in ms). -/
def RETENTION_MS : Nat := 7 * 24 * 60 * 60 * 1000

/-- Source: `DataStorage.getEvents()` with default options, as called by
`getCachedData`: keep records with `cached >= now - maxAge`
(`maxAge = CACHE_DURATION.EVENTS`, the other filters disabled), sort
descending by `timeMs` (JS comparator `b.timeMs - a.timeMs`), take the
default `limit = 1000`. -/
def getEventsRead (now : Nat) (events : List StoredRecord) : List StoredRecord :=
  (((events.filter (fun e => !(e.cached < now - CACHE_DURATION_EVENTS))).mergeSort
    (fun a b => b.timeMs ≤ a.timeMs)).take 1000)

/-- Source: `DataStorage.getStations()` with the default `maxAge`: age filter only,
no sort, no limit. -/
def getStationsRead (now : Nat) (stations : List StoredRecord) : List StoredRecord :=
  stations.filter (fun s => now - CACHE_DURATION_STATIONS ≤ s.cached)

/-- Source: `DataStorage.cleanup()`: cursor over both stores deleting every record
with `record.cached && record.cached < Date.now() - 7 days`. -/
def cleanup (now : Nat) (records : List StoredRecord) : List StoredRecord :=
  records.filter (fun r => !(r.cached ≠ 0 && r.cached < now - RETENTION_MS))

/-- One `store.put` of `saveEvents`/`saveStations`: upsert keyed by `id`,
last write wins (IndexedDB key order is not modelled; no statement below
depends on store order). -/
def putRecord (store : List StoredRecord) (r : StoredRecord) : List StoredRecord :=
  store.filter (fun s => !(s.id = r.id)) ++ [r]

/-- Source: `saveEvents(events)` / `saveStations(stations)`: each record is stored
with `cached : Date.now()`. -/
def saveRecords (now : Nat) (data : List StoredRecord) (store : List StoredRecord) :
    List StoredRecord :=
  data.foldl (fun st e => putRecord st { e with cached := now }) store

end DataStorage

namespace DataSyncManager

/-- The two IndexedDB object stores (there is no store for RSS items; the
`default` branches of `saveDataWithMetadata` and `getCachedData` only log a
warning for that type). -/
structure Store where
  events : List DataStorage.StoredRecord
  stations : List DataStorage.StoredRecord
deriving DecidableEq, Repr

/-- The DataSyncManager fields `syncDataType` reads and writes. -/
structure ManagerState where
  isOnline : Bool
  lastSyncTimestamps : SyncType → Option Nat

/-- Source: `DataSyncManager.getCachedData(type)`: the persistent-store read used
as offline/stale/failure fallback.  For `events` it is
`DataStorage.getEvents()` (age filter, recency sort, default limit), for
`stations` `DataStorage.getStations()`, and the `default` branch returns
`[]`. -/
def getCachedData (now : Nat) (store : Store) : SyncType → List DataStorage.StoredRecord
  | .events => DataStorage.getEventsRead now store.events
  | .stations => DataStorage.getStationsRead now store.stations
  | .rss => []

/-- Whether the network fetch of a sync attempt, had it been issued, would
have succeeded (with the processed records it would deliver) or failed. -/
inductive FetchOutcome where
  | success (data : List DataStorage.StoredRecord)
  | failure
deriving DecidableEq, Repr

/-- Source: `saveDataWithMetadata(type, data, ...)`: events and stations are
upserted into their stores (stamped `cached := now` by the save), the
`default` branch stores nothing. -/
def saveData (t : SyncType) (now : Nat) (data : List DataStorage.StoredRecord)
    (store : Store) : Store :=
  match t with
  | .events => { store with events := DataStorage.saveRecords now data store.events }
  | .stations => { store with stations := DataStorage.saveRecords now data store.stations }
  | .rss => store

/-- Result of one `syncDataType` call: the value returned to the caller,
whether a network fetch was attempted, the new `lastSyncTimestamps[type]`
entry, and the store contents afterwards. -/
structure SyncOutput where
  result : List DataStorage.StoredRecord
  networkAttempted : Bool
  lastSync : Option Nat
  store : Store
deriving DecidableEq, Repr

/-- Source: `DataSyncManager.syncDataType(type, { force })` at time `now`
(`Date.now()`), with the network outcome supplied by `fetch`.
Control flow from the source: offline-and-not-forced returns the cached
read with no fetch; otherwise a not-forced call whose
`now - (lastSyncTimestamps.get(type) || 0)` is below `config.interval`
(the active interval — `passiveInterval` is never consulted here) returns
the cached read with no fetch; otherwise the fetch runs, and on success
`lastSyncTimestamps` is set to `now` and the data saved and returned,
while on failure a retry is scheduled and the cached read returned with
`lastSyncTimestamps` untouched. -/
def syncDataType (st : ManagerState) (store : Store) (t : SyncType)
    (force : Bool) (now : Nat) (fetch : FetchOutcome) : SyncOutput :=
  if !st.isOnline && !force then
    { result := getCachedData now store t
      networkAttempted := false
      lastSync := st.lastSyncTimestamps t
      store := store }
  else
    if !force && now - (st.lastSyncTimestamps t).getD 0 < (syncConfig t).interval then
      { result := getCachedData now store t
        networkAttempted := false
        lastSync := st.lastSyncTimestamps t
        store := store }
    else
      match fetch with
      | .success data =>
        { result := data
          networkAttempted := true
          lastSync := some now
          store := saveData t now data store }
      | .failure =>
        { result := getCachedData now store t
          networkAttempted := true
          lastSync := st.lastSyncTimestamps t
          store := store }

/-- Point update of the `lastSyncTimestamps` map. -/
def setLastSync (f : SyncType → Option Nat) (t : SyncType) (v : Option Nat) :
    SyncType → Option Nat :=
  fun u => if u = t then v else f u

/-- One observed sync attempt for a fixed type: the connectivity flag at
that moment, the `force` option, the call's `Date.now()`, and the network
outcome. -/
structure Attempt where
  online : Bool
  force : Bool
  now : Nat
  fetch : FetchOutcome
deriving DecidableEq, Repr

/-- Run a sequence of `syncDataType` attempts for type `t`, threading the
manager state and the store. -/
def runAttempts (t : SyncType) : ManagerState × Store → List Attempt → ManagerState × Store
  | p, [] => p
  | (st, store), a :: rest =>
    let st1 : ManagerState := { st with isOnline := a.online }
    let out := syncDataType st1 store t a.force a.now a.fetch
    runAttempts t
      ({ st1 with lastSyncTimestamps := setLastSync st1.lastSyncTimestamps t out.lastSync },
        out.store) rest

/-- Clock sanity for a sequence of attempts: each attempt's `Date.now()` is
at least the given lower bound and the `now` values are non-decreasing. -/
def nowsOk (init : Nat) : List Attempt → Bool
  | [] => true
  | a :: rest => init ≤ a.now && nowsOk a.now rest

end DataSyncManager

namespace SW

/-- Source: `API_ENDPOINTS` from sw.js. -/
def API_ENDPOINTS : List String := ["polisen.se/api/", "allorigins.win/get"]

/-- Source: `CACHE_DURATION.API_DATA` (30 minutes, ms). -/
def API_DATA_TTL : Nat := 30 * 60 * 1000

/-- Source: `CACHE_DURATION.STATIC` and the retention bound of
`cleanupExpiredCaches` (7 days, ms). -/
def SW_RETENTION_MS : Nat := 7 * 24 * 60 * 60 * 1000

/-- Source: `isApiRequest(url)`. -/
def isApiRequest (url : String) : Bool :=
  API_ENDPOINTS.any (fun endp => jsIncludes url endp)

/-- A GET request as the fetch handler sees it: its URL and its `accept`
header (`none` when the header is absent). -/
structure SwRequest where
  url : String
  accept : Option String
deriving DecidableEq, Repr

/-- A resolved `fetch` response. -/
structure NetResponse where
  status : Nat
  statusText : String
  body : String
deriving DecidableEq, Repr

/-- Outcome of the `fetch(request)` call inside a strategy: resolved with a
response, or rejected (network unreachable / timeout). -/
inductive FetchResult where
  | resolved (r : NetResponse)
  | rejected
deriving DecidableEq, Repr

/-- An entry of the `DATA_CACHE_NAME` cache.  `timestampHeader` is the
`sw-cache-timestamp` header stored with the entry, if any; `storedAt` is
the wall-clock time of the `cache.put` (carried by the model so that the
entry's actual age can be stated — the source has no access to it unless
the header was stored). -/
structure CacheEntry where
  status : Nat
  statusText : String
  body : String
  timestampHeader : Option Nat
  storedAt : Nat
deriving DecidableEq, Repr

/-- A response returned to the page by a strategy: payload plus the
`sw-cache-status` label and the `sw-cache-timestamp` header, if set. -/
structure SwResponse where
  status : Nat
  statusText : String
  body : String
  cacheStatus : String
  timestampHeader : Option Nat
deriving DecidableEq, Repr

/-- The fixed document produced by `createOfflineHTML()`.  Its markup is a
large inline HTML/CSS template irrelevant to every statement below; the
model keeps only its identity as the offline page. -/
def createOfflineHTML : String := "offline page"

/-- Source: `createOfflineFallback(request)`.  The `none` result models the JS
`TypeError` thrown by `request.headers.get('accept').includes(...)` when
the request has no `accept` header (unreachable for API-class requests,
which are answered by the first branch). -/
def createOfflineFallback (req : SwRequest) : Option SwResponse :=
  if isApiRequest req.url then
    some ⟨200, "OK (Offline)", "[]", "offline-fallback", none⟩
  else
    match req.accept with
    | none => none
    | some a =>
      if jsIncludes a "text/html" then
        some ⟨200, "OK (Offline)", createOfflineHTML, "offline-fallback", none⟩
      else
        some ⟨503, "Service Unavailable (Offline)",
          "Offline - Innehåll ej tillgängligt", "offline-fallback", none⟩

/-- The catch-block of `networkFirstStrategy`: serve the cached entry when
present — labelling it by comparing `now` minus the *stored*
`sw-cache-timestamp` header (`parseInt(... || '0')`, so `0` when the header
is absent) against the API TTL — else synthesize the offline fallback. -/
def networkFirstFallback (cached : Option CacheEntry) (now : Nat) (req : SwRequest) :
    Option SwResponse :=
  match cached with
  | some c =>
    let cacheTimestamp := c.timestampHeader.getD 0
    let age := now - cacheTimestamp
    some ⟨c.status, c.statusText, c.body,
      if age > API_DATA_TTL then "cache-stale" else "cache-fresh",
      c.timestampHeader⟩
  | none => createOfflineFallback req

/-- Source: `networkFirstStrategy(request)` at time `now`, given the fetch outcome
and the same-key `DATA_CACHE_NAME` entry.  Returns the response delivered
to the page (`none` = rejected promise) and the cache entry afterwards.
On a 200 response the *raw clone* is cached — without the
`sw-cache-timestamp` header, which is only added to the copy returned to
the page; a non-200 response is thrown into the same catch as a rejected
fetch. -/
def networkFirstStrategy (fetchResult : FetchResult) (cached : Option CacheEntry)
    (now : Nat) (req : SwRequest) : Option SwResponse × Option CacheEntry :=
  match fetchResult with
  | .resolved r =>
    if r.status = 200 then
      (some ⟨r.status, r.statusText, r.body, "network-fresh", some now⟩,
        some ⟨r.status, r.statusText, r.body, none, now⟩)
    else
      (networkFirstFallback cached now req, cached)
  | .rejected => (networkFirstFallback cached now req, cached)

/-- Source: `syncPoliceData()`'s `cache.put` for one URL: unlike the
`networkFirstStrategy` success path, it stores the response *with* a
`sw-cache-timestamp` header. -/
def syncPoliceDataPut (r : NetResponse) (now : Nat) : CacheEntry :=
  ⟨r.status, r.statusText, r.body, some now, now⟩

/-- Source: `cleanupExpiredCaches()`: delete every `DATA_CACHE_NAME` entry whose
`now - parseInt(sw-cache-timestamp || '0')` exceeds 7 days. -/
def cleanupExpiredCaches (now : Nat) (entries : List CacheEntry) : List CacheEntry :=
  entries.filter (fun e => !(now - e.timestampHeader.getD 0 > SW_RETENTION_MS))

end SW

namespace Utils

/-- The browser escaping performed by `div.textContent = str;
div.innerHTML`: text-node serialization escapes `&`, `<` and `>`. -/
def escapeChar (c : Char) : List Char :=
  if c = '&' then "&amp;".toList
  else if c = '<' then "&lt;".toList
  else if c = '>' then "&gt;".toList
  else [c]

/-- Source: `Utils.sanitizeHTML(str)`: empty string for a falsy input, otherwise
the text-node escape of the input with every remaining `<` and `>` removed
(`.replace(/[<>]/g, '')`). -/
def sanitizeHTML (str : Option String) : String :=
  match str with
  | none => ""
  | some s =>
    if s = "" then ""
    else
      ⟨((s.toList.flatMap escapeChar).filter (fun c => !(c = '<' || c = '>')))⟩

end Utils

namespace CrimeSeveritySystem

/-- A `SEVERITY_MAPPING` entry of `CrimeSeveritySystem` in app.js (the
`matchType` tag the fuzzy/keyword paths spread onto the returned copy is
not modelled; no statement below reads it). -/
structure AppSeverity where
  level : Nat
  color : String
  description : String
  priority : String
deriving DecidableEq, Repr

/-- Source: `SEVERITY_MAPPING` as an association list in object-literal order. -/
def SEVERITY_MAPPING : List (String × AppSeverity) :=
  [("Trafikbrott", ⟨1, "#059669", "Trafikbrott", "low"⟩),
   ("Fortkörning", ⟨1, "#059669", "Fortkörning", "low"⟩),
   ("Parkering", ⟨1, "#22c55e", "Parkeringsbrott", "low"⟩),
   ("Ordningslagen", ⟨1, "#22c55e", "Ordningslagen", "low"⟩),
   ("Skadegörelse", ⟨2, "#f59e0b", "Skadegörelse", "medium"⟩),
   ("Stöld", ⟨2, "#f97316", "Stöld", "medium"⟩),
   ("Snatteri", ⟨2, "#f97316", "Snatteri", "medium"⟩),
   ("Bedrägeri", ⟨2, "#ea580c", "Bedrägeri", "medium"⟩),
   ("Inbrott", ⟨3, "#dc2626", "Inbrott", "high"⟩),
   ("Narkotikabrott", ⟨3, "#dc2626", "Narkotikabrott", "high"⟩),
   ("Rattfylleri", ⟨3, "#dc2626", "Rattfylleri", "high"⟩),
   ("Rattonykterhet", ⟨3, "#dc2626", "Rattonykterhet", "high"⟩),
   ("Rån", ⟨4, "#991b1b", "Rån", "critical"⟩),
   ("Misshandel", ⟨4, "#991b1b", "Misshandel", "critical"⟩),
   ("Våldtäkt", ⟨5, "#7f1d1d", "Våldtäkt", "critical"⟩),
   ("Våld mot tjänsteman", ⟨4, "#991b1b", "Våld mot tjänsteman", "critical"⟩),
   ("Olaga hot", ⟨3, "#dc2626", "Olaga hot", "high"⟩),
   ("Mord", ⟨5, "#7f1d1d", "Mord", "critical"⟩),
   ("Dråp", ⟨5, "#7f1d1d", "Dråp", "critical"⟩),
   ("Mordbrand", ⟨5, "#7f1d1d", "Mordbrand", "critical"⟩),
   ("Brand", ⟨4, "#991b1b", "Brand", "critical"⟩),
   ("Övrigt", ⟨2, "#6b7280", "Övrigt", "medium"⟩)]

/-- The fallback entry `SEVERITY_MAPPING['Övrigt']`. -/
def severityOther : AppSeverity := ⟨2, "#6b7280", "Övrigt", "medium"⟩

/-- The `crimeKeywords` table of `getSeverityInfo`, resolved to the mapped
entries. -/
def crimeKeywords : List (String × AppSeverity) :=
  [("stöld", ⟨2, "#f97316", "Stöld", "medium"⟩),
   ("stol", ⟨2, "#f97316", "Stöld", "medium"⟩),
   ("inbrott", ⟨3, "#dc2626", "Inbrott", "high"⟩),
   ("rån", ⟨4, "#991b1b", "Rån", "critical"⟩),
   ("misshandel", ⟨4, "#991b1b", "Misshandel", "critical"⟩),
   ("våld", ⟨4, "#991b1b", "Misshandel", "critical"⟩),
   ("narkotika", ⟨3, "#dc2626", "Narkotikabrott", "high"⟩),
   ("trafik", ⟨1, "#059669", "Trafikbrott", "low"⟩),
   ("brand", ⟨4, "#991b1b", "Brand", "critical"⟩),
   ("fylleri", ⟨3, "#dc2626", "Rattfylleri", "high"⟩)]

/-- Source: `CrimeSeveritySystem.getSeverityInfo(crimeType)`: direct object lookup,
then the fuzzy loop over `Object.entries` (first entry whose lowercased
key contains or is contained in the lowercased input), then the keyword
loop, then the `Övrigt` fallback. -/
def getSeverityInfo (crimeType : String) : AppSeverity :=
  if crimeType = "" then severityOther
  else
    match SEVERITY_MAPPING.find? (fun p => p.1 = crimeType) with
    | some p => p.2
    | none =>
      let lowerType := jsToLower crimeType
      match SEVERITY_MAPPING.find?
          (fun p => jsIncludes lowerType (jsToLower p.1) || jsIncludes (jsToLower p.1) lowerType) with
      | some p => p.2
      | none =>
        match crimeKeywords.find? (fun p => jsIncludes lowerType p.1) with
        | some p => p.2
        | none => severityOther

end CrimeSeveritySystem

namespace PoliceEvent

/-- The `typeMap` of `PoliceEvent.normalizeEventType`. -/
def normalizeEventType (t : String) : String :=
  if t = "Stöld/inbrott" then "Inbrott"
  else if t = "Trafikolycka" then "Trafikbrott"
  else if t = "Rån/stöld" then "Rån"
  else if t = "Våld" then "Misshandel"
  else t

/-- The raw-item fields `PoliceEvent.parseData` reads for the title and
description (the remaining fields feed coordinate/date/location parsing,
which no statement below touches). -/
structure RawItem where
  name : Option String
  title : Option String
  summary : Option String
  description : Option String
  itemType : Option String
deriving DecidableEq, Repr

/-- Source: `this.type = this.normalizeEventType(raw.type || 'Okänd händelse')`. -/
def parsedType (raw : RawItem) : String :=
  normalizeEventType (jsOrS raw.itemType "Okänd händelse")

/-- Source: `this.title = Utils.sanitizeHTML(raw.name || raw.title || this.type)`. -/
def parsedTitle (raw : RawItem) : String :=
  Utils.sanitizeHTML (some (jsOrS raw.name (jsOrS raw.title (parsedType raw))))

/-- Source: `this.description = Utils.sanitizeHTML(raw.summary || raw.description || '')`. -/
def parsedDescription (raw : RawItem) : String :=
  Utils.sanitizeHTML (some (jsOrS raw.summary (jsOrS raw.description "")))

end PoliceEvent

namespace PoliceEventsApp

/-- A constructed `PoliceEvent` as `fetchPoliceEvents` consumes it: only
its sort key and validity flag matter to the pipeline. -/
structure AppEvent where
  timeMs : Int
  isValid : Bool
deriving DecidableEq, Repr

/-- The result pipeline of `PoliceEventsApp.fetchPoliceEvents`:
`rawData.map(e => new PoliceEvent(e)).filter(e => e.isValid)
.sort((a, b) => b.timeMs - a.timeMs).slice(0, 500)`.  The `PoliceEvent`
constructor is the parameter `construct`; JS `Array.prototype.sort` with
the comparator `b.timeMs - a.timeMs` is a comparison sort for the boolean
order `b.timeMs ≤ a.timeMs`, modelled by `mergeSort`. -/
def fetchPoliceEventsPipeline {α : Type} (construct : α → AppEvent)
    (rawData : List α) : List AppEvent :=
  (((rawData.map construct).filter (fun e => e.isValid)).mergeSort
    (fun a b => b.timeMs ≤ a.timeMs)).take 500

end PoliceEventsApp

namespace SW

/-- Whether a `fetch` outcome takes `networkFirstStrategy` into its catch
block: a rejected promise, or a resolved response with a non-200 status
(thrown by the strategy itself). -/
def fetchFailed : FetchResult → Bool
  | .resolved r => r.status ≠ 200
  | .rejected => true

end SW

namespace Samples

/-- Two processed records sharing the composite key (same timestamp, title,
lat, lng; different id and description) and one with a distinct key. -/
def evA : DataSyncManager.ProcessedEvent :=
  ⟨"a", "2025-01-01 12:00:00", 100, "Stöld", "väska", "Stöld", "59.3", "18.0", true,
    ⟨2, "medium", "#a3a3a3"⟩⟩

def evB : DataSyncManager.ProcessedEvent :=
  ⟨"b", "2025-01-01 12:00:00", 100, "Stöld", "cykel", "Stöld", "59.3", "18.0", true,
    ⟨2, "medium", "#a3a3a3"⟩⟩

def evC : DataSyncManager.ProcessedEvent :=
  ⟨"c", "2025-01-02 09:00:00", 200, "Brand", "", "Brand", "59.3", "18.0", true,
    ⟨4, "critical", "#b91c1c"⟩⟩

/-- A store holding one event record saved three hours before `c1now`:
still retained (well under the 7-day ceiling) but older than
`CACHE_DURATION.EVENTS` (2 hours). -/
def staleStore : DataSyncManager.Store := ⟨[⟨"e1", 5, 1000⟩], []⟩

def c1now : Nat := 1000 + 3 * 60 * 60 * 1000

def offlineState : DataSyncManager.ManagerState := ⟨false, fun _ => none⟩

def emptyStore : DataSyncManager.Store := ⟨[], []⟩

def onlineZeroState : DataSyncManager.ManagerState := ⟨true, fun _ => some 0⟩

def onlineRecentState : DataSyncManager.ManagerState := ⟨true, fun _ => some 100⟩

def initState : DataSyncManager.ManagerState := ⟨true, fun _ => none⟩

def attemptsSample : List DataSyncManager.Attempt :=
  [⟨true, false, 10, .success []⟩, ⟨false, false, 20, .failure⟩]

def apiReq : SW.SwRequest := ⟨"https://polisen.se/api/events", some "application/json"⟩

def netOk : SW.NetResponse := ⟨200, "OK", "[]"⟩

def swT0 : Nat := 1000000000000

/-- An entry written by `syncPoliceData` at `swT0` (so it carries the
`sw-cache-timestamp` header), read back two hours later. -/
def oldEntry : SW.CacheEntry := SW.syncPoliceDataPut ⟨200, "OK", "[1]"⟩ swT0

def twoHours : Nat := 2 * 60 * 60 * 1000

/-- A concrete stand-in for the host `new Date(s).getTime()` on the two
datetime strings of `rawE1`/`rawE2`. -/
def datePd : String → Int := fun s => if s = "2" then 2 else if s = "1" then 1 else 0

def gid : String → String := fun s => s

def rawE1 : DataSyncManager.RawEvent := ⟨some 1, "1", some "A", none, some "Stöld", none⟩

def rawE2 : DataSyncManager.RawEvent := ⟨some 2, "2", some "B", none, some "Stöld", none⟩

def oldRec : DataStorage.StoredRecord := ⟨"old", 0, 1⟩

def freshRec : DataStorage.StoredRecord := ⟨"fresh", 0, 1000000000000⟩

def c9now : Nat := 1000000000000

end Samples

/-- Characters surviving `sanitizeHTML` are never angle brackets: the
escape step rewrites them to entities and the final replace strips any
remainder. -/
theorem sanitize_mem {s : Option String} {c : Char}
    (h : c ∈ (Utils.sanitizeHTML s).toList) : c ≠ '<' ∧ c ≠ '>' := by
  match s with
  | none => simp [Utils.sanitizeHTML] at h
  | some str =>
    by_cases he : str = ""
    · simp [Utils.sanitizeHTML, he] at h
    · simp only [Utils.sanitizeHTML, if_neg he] at h
      have h2 := List.of_mem_filter h
      constructor
      · intro hc; subst hc; simp at h2
      · intro hc; subst hc; simp at h2

/-- C5: with `baseDelay = 1000`, `maxDelay = 30000`, `maxRetries = 3`, a
cycle whose every retry fails schedules exactly the delays 1000, 2000,
4000 ms and then abandons (nothing scheduled at attempt 4), and in general
attempt `n` is scheduled after `min(baseDelay * 2^(n-1), maxDelay)` when
`n ≤ maxRetries` and abandoned when `n > maxRetries`. -/
theorem retry_backoff_schedule :
    DataSyncManager.scheduleRetryRun DataSyncManager.retryConfig (fun _ => true)
      = [1000, 2000, 4000]
  ∧ ∀ n : Nat, DataSyncManager.scheduleRetry DataSyncManager.retryConfig n =
      if 3 < n then none else some (min (1000 * 2 ^ (n - 1)) 30000) :=
  ⟨rfl, fun _ => rfl⟩

/-- C6 counterexample: a record whose *type* field contains the critical
keyword `"skott"` but whose title does not is classified by
`calculateSeverity` with the default severity level 1, not level 5 — the
critical-keyword scan reads only the title. -/
theorem type_keyword_does_not_override :
    jsIncludes "skottdrama" "skott" = true
  ∧ DataSyncManager.calculateSeverity "skottdrama" "" = ⟨1, "low", "#6b7280"⟩
  ∧ (CrimeSeveritySystem.getSeverityInfo "skottdrama").level = 2 := by
  refine ⟨by decide, by decide, by decide⟩

/-- C6 (amended): a critical keyword contained in the lowercased *title*
forces `calculateSeverity` to severity level 5 (priority `critical`)
regardless of the record's type field. -/
theorem title_keyword_overrides_severity (ty ti kw : String)
    (hk : kw ∈ DataSyncManager.criticalKeywords)
    (ht : jsIncludes (jsToLower ti) kw = true) :
    DataSyncManager.calculateSeverity ty ti = ⟨5, "critical", "#450a0a"⟩ := by
  unfold DataSyncManager.calculateSeverity
  have hany : DataSyncManager.criticalKeywords.any
      (fun k => jsIncludes (jsToLower ti) k) = true :=
    List.any_eq_true.mpr ⟨kw, hk, ht⟩
  simp [hany]

theorem title_keyword_overrides_severity_witness :
    ("skott" ∈ DataSyncManager.criticalKeywords)
  ∧ jsIncludes (jsToLower "Skottlossning i centrum") "skott" = true
  ∧ DataSyncManager.calculateSeverity "Stöld" "Skottlossning i centrum"
      = ⟨5, "critical", "#450a0a"⟩ :=
  ⟨by decide, by decide,
    title_keyword_overrides_severity "Stöld" "Skottlossning i centrum" "skott"
      (by decide) (by decide)⟩

/-- C10: `sanitizeHTML` output never contains `<` or `>`, is empty on
absent or empty input, and consequently the title and description fields
produced by `PoliceEvent.parseData` are free of these markup characters. -/
theorem sanitizeHTML_no_markup :
    (∀ s : Option String,
      '<' ∉ (Utils.sanitizeHTML s).toList ∧ '>' ∉ (Utils.sanitizeHTML s).toList)
  ∧ Utils.sanitizeHTML none = ""
  ∧ Utils.sanitizeHTML (some "") = ""
  ∧ ∀ raw : PoliceEvent.RawItem,
      '<' ∉ (PoliceEvent.parsedTitle raw).toList
    ∧ '>' ∉ (PoliceEvent.parsedTitle raw).toList
    ∧ '<' ∉ (PoliceEvent.parsedDescription raw).toList
    ∧ '>' ∉ (PoliceEvent.parsedDescription raw).toList := by
  refine ⟨fun s => ⟨fun h => (sanitize_mem h).1 rfl, fun h => (sanitize_mem h).2 rfl⟩,
    rfl, rfl, fun raw => ⟨?_, ?_, ?_, ?_⟩⟩
  · exact fun h => (sanitize_mem h).1 rfl
  · exact fun h => (sanitize_mem h).2 rfl
  · exact fun h => (sanitize_mem h).1 rfl
  · exact fun h => (sanitize_mem h).2 rfl

namespace DataSyncManager

/-- The deduplicated list is a subsequence of the input (order preserved,
nothing invented). -/
theorem dedupAux_sublist (seen : List String) (es : List ProcessedEvent) :
    (dedupAux seen es).Sublist es := by
  induction es generalizing seen with
  | nil => simp [dedupAux]
  | cons e es ih =>
    by_cases h : eventKey e ∈ seen
    · simpa [dedupAux, h] using (ih seen).cons e
    · simpa [dedupAux, h] using (ih (eventKey e :: seen)).cons₂ e

/-- Keys of records emitted by `dedupAux` were not in `seen`. -/
theorem dedupAux_key_fresh (seen : List String) (es : List ProcessedEvent) :
    ∀ f ∈ dedupAux seen es, eventKey f ∉ seen := by
  induction es generalizing seen with
  | nil => simp [dedupAux]
  | cons e es ih =>
    intro f hf
    by_cases h : eventKey e ∈ seen
    · rw [dedupAux, if_pos h] at hf
      exact ih seen f hf
    · rw [dedupAux, if_neg h] at hf
      rcases List.mem_cons.mp hf with hfe | hfr
      · subst hfe; exact h
      · intro hs
        exact ih (eventKey e :: seen) f hfr (List.mem_cons_of_mem _ hs)

/-- No two records emitted by `dedupAux` share a key. -/
theorem dedupAux_keys_nodup (seen : List String) (es : List ProcessedEvent) :
    ((dedupAux seen es).map eventKey).Nodup := by
  induction es generalizing seen with
  | nil => simp [dedupAux]
  | cons e es ih =>
    by_cases h : eventKey e ∈ seen
    · rw [dedupAux, if_pos h]; exact ih seen
    · rw [dedupAux, if_neg h]
      refine List.nodup_cons.mpr ⟨?_, ih (eventKey e :: seen)⟩
      intro hmem
      rcases List.mem_map.mp hmem with ⟨f, hf, hkey⟩
      exact dedupAux_key_fresh (eventKey e :: seen) es f hf
        (hkey ▸ List.mem_cons_self _ _)

/-- For every key present in the input (and not yet seen), the first input
record bearing that key is kept by `dedupAux`. -/
theorem dedupAux_keeps_first (es : List ProcessedEvent) :
    ∀ (seen : List String) (k : String), (∃ e ∈ es, eventKey e = k) → k ∉ seen →
      ∃ f, es.find? (fun x => decide (eventKey x = k)) = some f
        ∧ f ∈ dedupAux seen es := by
  induction es with
  | nil => rintro seen k ⟨e, he, _⟩ _; simp at he
  | cons e es ih =>
    rintro seen k ⟨w, hw, hwk⟩ hks
    by_cases hek : eventKey e = k
    · refine ⟨e, ?_, ?_⟩
      · simp [List.find?, hek]
      · rw [dedupAux, if_neg (hek ▸ hks)]
        exact List.mem_cons_self _ _
    · have hwtail : ∃ x ∈ es, eventKey x = k := by
        rcases List.mem_cons.mp hw with hwe | hwr
        · exact absurd (hwe ▸ hwk) hek
        · exact ⟨w, hwr, hwk⟩
      have hfind : (e :: es).find? (fun x => decide (eventKey x = k))
          = es.find? (fun x => decide (eventKey x = k)) := by
        simp [List.find?, hek]
      by_cases h : eventKey e ∈ seen
      · rw [dedupAux, if_pos h, hfind]
        exact ih seen k hwtail hks
      · rw [dedupAux, if_neg h, hfind]
        have hks2 : k ∉ eventKey e :: seen := by
          intro hk
          rcases List.mem_cons.mp hk with hk1 | hk2
          · exact hek hk1.symm
          · exact hks hk2
        obtain ⟨f, hfd, hfm⟩ := ih (eventKey e :: seen) k hwtail hks2
        exact ⟨f, hfd, List.mem_cons_of_mem _ hfm⟩

end DataSyncManager

/-- C4: deduplication by the composite key `(timestamp, title, lat, lng)`
yields a subsequence of the input in which no two records share a key, and
for every input record the first input occurrence of its key survives —
first occurrence wins. -/
theorem dedup_first_occurrence_wins (es : List DataSyncManager.ProcessedEvent) :
    ((DataSyncManager.deduplicateEvents es).map DataSyncManager.eventKey).Nodup
  ∧ (DataSyncManager.deduplicateEvents es).Sublist es
  ∧ ∀ e ∈ es, ∃ f,
      es.find? (fun x => decide (DataSyncManager.eventKey x = DataSyncManager.eventKey e))
        = some f
    ∧ f ∈ DataSyncManager.deduplicateEvents es := by
  refine ⟨DataSyncManager.dedupAux_keys_nodup [] es,
    DataSyncManager.dedupAux_sublist [] es, fun e he => ?_⟩
  exact DataSyncManager.dedupAux_keeps_first es [] (DataSyncManager.eventKey e)
    ⟨e, he, rfl⟩ (by simp)

theorem dedup_first_occurrence_wins_witness :
    DataSyncManager.deduplicateEvents [Samples.evA, Samples.evB, Samples.evC]
      = [Samples.evA, Samples.evC]
  ∧ (((DataSyncManager.deduplicateEvents [Samples.evA, Samples.evB, Samples.evC]).map
        DataSyncManager.eventKey).Nodup
    ∧ (DataSyncManager.deduplicateEvents [Samples.evA, Samples.evB, Samples.evC]).Sublist
        [Samples.evA, Samples.evB, Samples.evC]
    ∧ ∀ e ∈ [Samples.evA, Samples.evB, Samples.evC], ∃ f,
        ([Samples.evA, Samples.evB, Samples.evC]).find?
          (fun x => decide (DataSyncManager.eventKey x = DataSyncManager.eventKey e))
          = some f
      ∧ f ∈ DataSyncManager.deduplicateEvents [Samples.evA, Samples.evB, Samples.evC]) :=
  ⟨by decide, dedup_first_occurrence_wins [Samples.evA, Samples.evB, Samples.evC]⟩

/-- C1 counterexample: offline and not forced, `syncDataType` does issue no
network call, but it does *not* return exactly the records the persistent
store holds: the read behind `getCachedData` applies the default
`CACHE_DURATION.EVENTS` age filter, so a record saved three hours earlier
is still held (the 7-day retention has not elapsed) yet missing from the
returned set. -/
theorem offline_read_filters_old_records :
    (DataSyncManager.syncDataType Samples.offlineState Samples.staleStore .events false
        Samples.c1now .failure).networkAttempted = false
  ∧ (DataSyncManager.syncDataType Samples.offlineState Samples.staleStore .events false
        Samples.c1now .failure).result = []
  ∧ Samples.staleStore.events ≠ []
  ∧ DataStorage.cleanup Samples.c1now Samples.staleStore.events = Samples.staleStore.events := by
  refine ⟨rfl, ?_, by decide, by decide⟩
  show DataStorage.getEventsRead Samples.c1now Samples.staleStore.events = []
  have hf : Samples.staleStore.events.filter
      (fun e => !(e.cached < Samples.c1now - DataStorage.CACHE_DURATION_EVENTS)) = [] := by
    decide
  rw [DataStorage.getEventsRead, hf, List.mergeSort_nil]
  rfl

/-- C1 (amended): offline and not forced, `syncDataType` issues no network
call, leaves the store untouched, and returns the persistent store's
default read (`getCachedData`: the age-filtered, recency-sorted, capped
view for events/stations, `[]` for the storeless rss type) — which may be
empty or omit held-but-expired records. -/
theorem offline_sync_returns_store_read
    (st : DataSyncManager.ManagerState) (store : DataSyncManager.Store)
    (t : DataSyncManager.SyncType) (now : Nat) (fetch : DataSyncManager.FetchOutcome)
    (h : st.isOnline = false) :
    DataSyncManager.syncDataType st store t false now fetch =
      { result := DataSyncManager.getCachedData now store t
        networkAttempted := false
        lastSync := st.lastSyncTimestamps t
        store := store } := by
  unfold DataSyncManager.syncDataType
  simp [h]

theorem offline_sync_returns_store_read_witness :
    Samples.offlineState.isOnline = false
  ∧ DataSyncManager.syncDataType Samples.offlineState Samples.staleStore .stations false
      Samples.c1now .failure =
      { result := DataSyncManager.getCachedData Samples.c1now Samples.staleStore .stations
        networkAttempted := false
        lastSync := Samples.offlineState.lastSyncTimestamps .stations
        store := Samples.staleStore } :=
  ⟨rfl, offline_sync_returns_store_read Samples.offlineState Samples.staleStore .stations
    Samples.c1now .failure rfl⟩

/-- C2 counterexample: the staleness skip compares against
`config.interval` only, never against the mode-dependent effective
interval: online in passive (hidden) mode with the last events sync
6 minutes old — within the 15-minute passive effective interval but past
the 5-minute active one — `syncDataType` attempts the network anyway. -/
theorem staleness_check_ignores_passive_interval :
    (360000 - ((Samples.onlineZeroState.lastSyncTimestamps .events).getD 0)
        < DataSyncManager.effectiveInterval .events true)
  ∧ (DataSyncManager.syncDataType Samples.onlineZeroState Samples.emptyStore .events false
        360000 .failure).networkAttempted = true := by
  exact ⟨by decide, rfl⟩

/-- C2 (amended): when `force` is false and `now` minus the type's last
sync timestamp is below the type's configured *active* interval
(`syncConfig[type].interval`, regardless of activity mode), `syncDataType`
attempts no network call, leaves the store unchanged, and returns the
cached read. -/
theorem fresh_skip_no_network
    (st : DataSyncManager.ManagerState) (store : DataSyncManager.Store)
    (t : DataSyncManager.SyncType) (now : Nat) (fetch : DataSyncManager.FetchOutcome)
    (h : now - (st.lastSyncTimestamps t).getD 0 < (DataSyncManager.syncConfig t).interval) :
    DataSyncManager.syncDataType st store t false now fetch =
      { result := DataSyncManager.getCachedData now store t
        networkAttempted := false
        lastSync := st.lastSyncTimestamps t
        store := store } := by
  unfold DataSyncManager.syncDataType
  cases hOn : st.isOnline <;> simp [hOn, h]

theorem fresh_skip_no_network_witness :
    (150 - ((Samples.onlineRecentState.lastSyncTimestamps .events).getD 0)
        < (DataSyncManager.syncConfig .events).interval)
  ∧ DataSyncManager.syncDataType Samples.onlineRecentState Samples.emptyStore .events false
      150 .failure =
      { result := DataSyncManager.getCachedData 150 Samples.emptyStore .events
        networkAttempted := false
        lastSync := Samples.onlineRecentState.lastSyncTimestamps .events
        store := Samples.emptyStore } :=
  ⟨by decide, fresh_skip_no_network Samples.onlineRecentState Samples.emptyStore .events
    150 .failure (by decide)⟩

namespace DataSyncManager

/-- One `syncDataType` call either leaves the type's last-sync entry
untouched (skip paths and failures) or sets it to the call's `now`
(success). -/
theorem syncDataType_lastSync_cases (st : ManagerState) (store : Store) (t : SyncType)
    (force : Bool) (now : Nat) (fetch : FetchOutcome) :
    (syncDataType st store t force now fetch).lastSync = st.lastSyncTimestamps t
  ∨ (syncDataType st store t force now fetch).lastSync = some now := by
  unfold syncDataType
  by_cases h1 : (!st.isOnline && !force) = true
  · rw [if_pos h1]; left; rfl
  · rw [if_neg h1]
    by_cases h2 : (!force
        && decide (now - (st.lastSyncTimestamps t).getD 0 < (syncConfig t).interval)) = true
    · rw [if_pos h2]; left; rfl
    · rw [if_neg h2]
      cases fetch with
      | success d => right; rfl
      | failure => left; rfl

/-- The lower bound in `nowsOk` can be weakened. -/
theorem nowsOk_mono {a b : Nat} (as : List Attempt) (hab : a ≤ b)
    (h : nowsOk b as = true) : nowsOk a as = true := by
  cases as with
  | nil => rfl
  | cons x rest =>
    simp only [nowsOk, Bool.and_eq_true, decide_eq_true_eq] at h ⊢
    exact ⟨le_trans hab h.1, h.2⟩

/-- Unfolding equation for `runAttempts` on a non-empty attempt list. -/
theorem runAttempts_cons (t : SyncType) (st : ManagerState) (store : Store)
    (a : Attempt) (rest : List Attempt) :
    runAttempts t (st, store) (a :: rest) =
      runAttempts t
        (⟨a.online,
          setLastSync st.lastSyncTimestamps t
            (syncDataType { st with isOnline := a.online } store t a.force a.now
              a.fetch).lastSync⟩,
          (syncDataType { st with isOnline := a.online } store t a.force a.now
            a.fetch).store) rest := rfl

/-- Across any attempt sequence with sane clocks, the type's last-sync
entry never decreases. -/
theorem runAttempts_lastSync_le (t : SyncType) (as : List Attempt) :
    ∀ (st : ManagerState) (store : Store),
      nowsOk ((st.lastSyncTimestamps t).getD 0) as = true →
      (st.lastSyncTimestamps t).getD 0
        ≤ (((runAttempts t (st, store) as).1).lastSyncTimestamps t).getD 0 := by
  induction as with
  | nil => intro st store _; exact le_refl _
  | cons a rest ih =>
    intro st store h
    simp only [nowsOk, Bool.and_eq_true, decide_eq_true_eq] at h
    obtain ⟨h1, h2⟩ := h
    rw [runAttempts_cons]
    have hcases := syncDataType_lastSync_cases { st with isOnline := a.online } store t
      a.force a.now a.fetch
    set out := syncDataType { st with isOnline := a.online } store t a.force a.now a.fetch
      with hout
    have hsl : setLastSync st.lastSyncTimestamps t out.lastSync t = out.lastSync := by
      simp [setLastSync]
    have hproj : ({ st with isOnline := a.online } : ManagerState).lastSyncTimestamps t
        = st.lastSyncTimestamps t := rfl
    rcases hcases with hc | hc
    · rw [hproj] at hc
      have hrest : nowsOk
          (((⟨a.online, setLastSync st.lastSyncTimestamps t out.lastSync⟩ :
            ManagerState).lastSyncTimestamps t).getD 0) rest = true := by
        show nowsOk ((setLastSync st.lastSyncTimestamps t out.lastSync t).getD 0) rest = true
        rw [hsl, hc]
        exact nowsOk_mono rest h1 h2
      have hle := ih ⟨a.online, setLastSync st.lastSyncTimestamps t out.lastSync⟩
        out.store hrest
      calc (st.lastSyncTimestamps t).getD 0
          = (setLastSync st.lastSyncTimestamps t out.lastSync t).getD 0 := by rw [hsl, hc]
        _ ≤ _ := hle
    · have hrest : nowsOk
          (((⟨a.online, setLastSync st.lastSyncTimestamps t out.lastSync⟩ :
            ManagerState).lastSyncTimestamps t).getD 0) rest = true := by
        show nowsOk ((setLastSync st.lastSyncTimestamps t out.lastSync t).getD 0) rest = true
        rw [hsl, hc]
        exact h2
      have hle := ih ⟨a.online, setLastSync st.lastSyncTimestamps t out.lastSync⟩
        out.store hrest
      have hstep : a.now
          ≤ (((runAttempts t
              (⟨a.online, setLastSync st.lastSyncTimestamps t out.lastSync⟩, out.store)
              rest).1).lastSyncTimestamps t).getD 0 := by
        calc a.now
            = (setLastSync st.lastSyncTimestamps t out.lastSync t).getD 0 := by
              rw [hsl, hc]
              rfl
          _ ≤ _ := hle
      exact le_trans h1 hstep

/-- A successful attempted sync stamps the entry with the call's `now`. -/
theorem syncDataType_success_stamps (st : ManagerState) (store : Store) (t : SyncType)
    (force : Bool) (now : Nat) (d : List DataStorage.StoredRecord)
    (h : (syncDataType st store t force now (.success d)).networkAttempted = true) :
    (syncDataType st store t force now (.success d)).lastSync = some now := by
  unfold syncDataType at h ⊢
  by_cases h1 : (!st.isOnline && !force) = true
  · rw [if_pos h1] at h; simp at h
  · rw [if_neg h1] at h ⊢
    by_cases h2 : (!force
        && decide (now - (st.lastSyncTimestamps t).getD 0 < (syncConfig t).interval)) = true
    · rw [if_pos h2] at h; simp at h
    · rw [if_neg h2]

/-- A failed fetch leaves the entry unchanged. -/
theorem syncDataType_failure_keeps (st : ManagerState) (store : Store) (t : SyncType)
    (force : Bool) (now : Nat) :
    (syncDataType st store t force now .failure).lastSync = st.lastSyncTimestamps t := by
  unfold syncDataType
  by_cases h1 : (!st.isOnline && !force) = true
  · rw [if_pos h1]
  · rw [if_neg h1]
    by_cases h2 : (!force
        && decide (now - (st.lastSyncTimestamps t).getD 0 < (syncConfig t).interval)) = true
    · rw [if_pos h2]
    · rw [if_neg h2]

end DataSyncManager

/-- C3: per type, `lastSyncTimestamps` is non-decreasing across any
sequence of sync attempts with sane (non-decreasing) clock readings; a
successful attempted sync sets it to the attempt's `now`, and a failed
fetch leaves it unchanged. -/
theorem lastSync_monotone (t : DataSyncManager.SyncType)
    (st : DataSyncManager.ManagerState) (store : DataSyncManager.Store)
    (as : List DataSyncManager.Attempt)
    (h : DataSyncManager.nowsOk ((st.lastSyncTimestamps t).getD 0) as = true) :
    (st.lastSyncTimestamps t).getD 0
      ≤ (((DataSyncManager.runAttempts t (st, store) as).1).lastSyncTimestamps t).getD 0
  ∧ (∀ (force : Bool) (now : Nat) (d : List DataStorage.StoredRecord),
      (DataSyncManager.syncDataType st store t force now (.success d)).networkAttempted = true →
      (DataSyncManager.syncDataType st store t force now (.success d)).lastSync = some now)
  ∧ (∀ (force : Bool) (now : Nat),
      (DataSyncManager.syncDataType st store t force now .failure).lastSync
        = st.lastSyncTimestamps t) :=
  ⟨DataSyncManager.runAttempts_lastSync_le t as st store h,
    fun force now d hnet =>
      DataSyncManager.syncDataType_success_stamps st store t force now d hnet,
    fun force now => DataSyncManager.syncDataType_failure_keeps st store t force now⟩

theorem lastSync_monotone_witness :
    DataSyncManager.nowsOk
      ((Samples.initState.lastSyncTimestamps .events).getD 0) Samples.attemptsSample = true
  ∧ ((Samples.initState.lastSyncTimestamps .events).getD 0
      ≤ (((DataSyncManager.runAttempts .events (Samples.initState, Samples.emptyStore)
            Samples.attemptsSample).1).lastSyncTimestamps .events).getD 0
    ∧ (∀ (force : Bool) (now : Nat) (d : List DataStorage.StoredRecord),
        (DataSyncManager.syncDataType Samples.initState Samples.emptyStore .events force now
          (.success d)).networkAttempted = true →
        (DataSyncManager.syncDataType Samples.initState Samples.emptyStore .events force now
          (.success d)).lastSync = some now)
    ∧ (∀ (force : Bool) (now : Nat),
        (DataSyncManager.syncDataType Samples.initState Samples.emptyStore .events force now
          .failure).lastSync = Samples.initState.lastSyncTimestamps .events)) :=
  ⟨by decide,
    lastSync_monotone .events Samples.initState Samples.emptyStore Samples.attemptsSample
      (by decide)⟩

/-- C7 counterexample: the success path of `networkFirstStrategy` caches
the raw response clone without the `sw-cache-timestamp` header, so on a
later network failure the TTL comparison runs against a timestamp of 0:
an entry cached only five minutes earlier (age well under the 30-minute
TTL) is served labelled `cache-stale`, not `cache-fresh`. -/
theorem network_first_label_ignores_true_age :
    ∃ c : SW.CacheEntry,
      (SW.networkFirstStrategy (.resolved Samples.netOk) none Samples.swT0 Samples.apiReq).2
        = some c
    ∧ (Samples.swT0 + 300000) - c.storedAt ≤ SW.API_DATA_TTL
    ∧ ((SW.networkFirstStrategy .rejected
          (SW.networkFirstStrategy (.resolved Samples.netOk) none Samples.swT0
            Samples.apiReq).2
          (Samples.swT0 + 300000) Samples.apiReq).1).map (fun r => r.cacheStatus)
        = some "cache-stale" := by
  refine ⟨⟨200, "OK", "[]", none, Samples.swT0⟩, by decide, by decide, by decide⟩

/-- C7 (amended): for an API-class request whose network attempt fails,
`networkFirstStrategy` returns the same-key cache entry whenever one
exists — regardless of age — labelled by comparing `now` minus the
entry's *stored* `sw-cache-timestamp` header (0 when absent, as for
entries cached by the strategy's own success path) against the 30-minute
TTL; with no cache entry it synthesizes the empty-but-valid JSON fallback,
and `createOfflineFallback` serves an offline page to non-API requests
accepting `text/html` and a 503 otherwise; the strategy never propagates
the failure. -/
theorem network_first_failure_serves_cache_or_fallback
    (fr : SW.FetchResult) (cached : Option SW.CacheEntry) (now : Nat) (req : SW.SwRequest)
    (hapi : SW.isApiRequest req.url = true)
    (hfail : SW.fetchFailed fr = true) :
    (∀ c : SW.CacheEntry, cached = some c →
      (SW.networkFirstStrategy fr cached now req).1 =
        some ⟨c.status, c.statusText, c.body,
          if now - c.timestampHeader.getD 0 > SW.API_DATA_TTL
            then "cache-stale" else "cache-fresh",
          c.timestampHeader⟩)
  ∧ (cached = none →
      (SW.networkFirstStrategy fr cached now req).1
        = some ⟨200, "OK (Offline)", "[]", "offline-fallback", none⟩)
  ∧ ((SW.networkFirstStrategy fr cached now req).1).isSome = true
  ∧ (∀ (r2 : SW.SwRequest) (a : String), SW.isApiRequest r2.url = false →
      r2.accept = some a → jsIncludes a "text/html" = true →
      SW.createOfflineFallback r2
        = some ⟨200, "OK (Offline)", SW.createOfflineHTML, "offline-fallback", none⟩)
  ∧ (∀ (r2 : SW.SwRequest) (a : String), SW.isApiRequest r2.url = false →
      r2.accept = some a → jsIncludes a "text/html" = false →
      (SW.createOfflineFallback r2).map (fun r => r.status) = some 503) := by
  have hfb : SW.networkFirstFallback cached now req
      = (SW.networkFirstStrategy fr cached now req).1 := by
    cases fr with
    | resolved r =>
      simp only [SW.fetchFailed, ne_eq, decide_not] at hfail
      have : ¬ r.status = 200 := by
        intro h200
        rw [h200] at hfail
        simp at hfail
      simp [SW.networkFirstStrategy, this]
    | rejected => rfl
  refine ⟨?_, ?_, ?_, ?_, ?_⟩
  · intro c hc
    rw [← hfb, hc]
    rfl
  · intro hc
    rw [← hfb, hc]
    simp [SW.networkFirstFallback, SW.createOfflineFallback, hapi]
  · rw [← hfb]
    cases cached with
    | some c => rfl
    | none =>
      simp [SW.networkFirstFallback, SW.createOfflineFallback, hapi]
  · intro r2 a hr2 ha hhtml
    simp [SW.createOfflineFallback, hr2, ha, hhtml]
  · intro r2 a hr2 ha hhtml
    simp [SW.createOfflineFallback, hr2, ha, hhtml]

theorem network_first_failure_serves_cache_or_fallback_witness :
    SW.isApiRequest Samples.apiReq.url = true
  ∧ SW.fetchFailed .rejected = true
  ∧ (SW.networkFirstStrategy .rejected (some Samples.oldEntry)
        (Samples.swT0 + Samples.twoHours) Samples.apiReq).1 =
      some ⟨Samples.oldEntry.status, Samples.oldEntry.statusText, Samples.oldEntry.body,
        if (Samples.swT0 + Samples.twoHours) - Samples.oldEntry.timestampHeader.getD 0
            > SW.API_DATA_TTL
          then "cache-stale" else "cache-fresh",
        Samples.oldEntry.timestampHeader⟩ :=
  ⟨by decide, by decide,
    (network_first_failure_serves_cache_or_fallback .rejected (some Samples.oldEntry)
      (Samples.swT0 + Samples.twoHours) Samples.apiReq (by decide) (by decide)).1
      Samples.oldEntry rfl⟩

/-- C8 counterexample: the record sequence `syncEvents` hands to its
caller is in collection order, not sorted descending by `timeMs`: two raw
events with ascending timestamps come back ascending. -/
theorem syncEvents_output_not_sorted :
    ((DataSyncManager.syncEventsProcess Samples.datePd Samples.gid 0
        [Samples.rawE1, Samples.rawE2]).map (fun e => e.timeMs)) = [1, 2]
  ∧ ¬ List.Sorted (fun a b : DataSyncManager.ProcessedEvent => b.timeMs ≤ a.timeMs)
      (DataSyncManager.syncEventsProcess Samples.datePd Samples.gid 0
        [Samples.rawE1, Samples.rawE2]) := by
  constructor
  · decide
  · decide

/-- C8 (amended): the sequence delivered by
`PoliceEventsApp.fetchPoliceEvents` (app.js) — valid constructed events
sorted by the comparator `b.timeMs - a.timeMs` and sliced to 500 — is
sorted in descending `timeMs` order and contains at most 500 records,
whatever the constructor does; the `DataSyncManager.syncEvents` path
applies no such sort or cap. -/
theorem fetchPoliceEvents_sorted_capped {α : Type}
    (construct : α → PoliceEventsApp.AppEvent) (rawData : List α) :
    List.Sorted (fun a b : PoliceEventsApp.AppEvent => b.timeMs ≤ a.timeMs)
      (PoliceEventsApp.fetchPoliceEventsPipeline construct rawData)
  ∧ (PoliceEventsApp.fetchPoliceEventsPipeline construct rawData).length ≤ 500 := by
  constructor
  · have hs : (((rawData.map construct).filter (fun e => e.isValid)).mergeSort
        (fun a b => decide (b.timeMs ≤ a.timeMs))).Pairwise
        (fun a b : PoliceEventsApp.AppEvent => decide (b.timeMs ≤ a.timeMs) = true) := by
      apply List.sorted_mergeSort
      · intro a b c hab hbc
        simp only [decide_eq_true_eq] at hab hbc ⊢
        exact le_trans hbc hab
      · intro a b
        simp only [Bool.or_eq_true, decide_eq_true_eq]
        exact le_total b.timeMs a.timeMs
    have hs2 := List.Pairwise.sublist (List.take_sublist 500 _) hs
    exact hs2.imp (fun h => of_decide_eq_true h)
  · exact List.length_take_le 500 _

/-- C9: on stored records (which always carry the truthy `cached`
timestamp written by `saveEvents`/`saveStations`), `cleanup` deletes a
record exactly when `cached` precedes the fixed 7-day cutoff — the sweep
takes no `maxAge` argument, so per-read filters cannot influence it — and
afterwards no record older than 7 days remains; the service worker's
`cleanupExpiredCaches` likewise leaves only entries whose
header-derived age is within 7 days. -/
theorem cleanup_retention_ceiling (now : Nat) (records : List DataStorage.StoredRecord)
    (h : ∀ r ∈ records, r.cached ≠ 0) :
    DataStorage.cleanup now records
      = records.filter (fun r => !(r.cached < now - DataStorage.RETENTION_MS))
  ∧ (∀ r ∈ DataStorage.cleanup now records, ¬(r.cached < now - DataStorage.RETENTION_MS))
  ∧ ∀ (entries : List SW.CacheEntry), ∀ e ∈ SW.cleanupExpiredCaches now entries,
      now - e.timestampHeader.getD 0 ≤ SW.SW_RETENTION_MS := by
  have heq : DataStorage.cleanup now records
      = records.filter (fun r => !(r.cached < now - DataStorage.RETENTION_MS)) := by
    unfold DataStorage.cleanup
    apply List.filter_congr
    intro r hr
    have := h r hr
    simp [this]
  refine ⟨heq, ?_, ?_⟩
  · intro r hr
    rw [heq] at hr
    have := List.of_mem_filter hr
    simpa using this
  · intro entries e he
    have := List.of_mem_filter he
    simp only [Bool.not_eq_eq_eq_not, Bool.not_true, decide_eq_false_iff_not,
      not_lt] at this
    omega

theorem cleanup_retention_ceiling_witness :
    (∀ r ∈ [Samples.oldRec, Samples.freshRec], r.cached ≠ 0)
  ∧ (DataStorage.cleanup Samples.c9now [Samples.oldRec, Samples.freshRec]
      = [Samples.freshRec])
  ∧ (DataStorage.cleanup Samples.c9now [Samples.oldRec, Samples.freshRec]
      = ([Samples.oldRec, Samples.freshRec]).filter
          (fun r => !(r.cached < Samples.c9now - DataStorage.RETENTION_MS))
    ∧ (∀ r ∈ DataStorage.cleanup Samples.c9now [Samples.oldRec, Samples.freshRec],
        ¬(r.cached < Samples.c9now - DataStorage.RETENTION_MS))
    ∧ ∀ (entries : List SW.CacheEntry),
        ∀ e ∈ SW.cleanupExpiredCaches Samples.c9now entries,
        Samples.c9now - e.timestampHeader.getD 0 ≤ SW.SW_RETENTION_MS) :=
  ⟨by decide, by decide,
    cleanup_retention_ceiling Samples.c9now [Samples.oldRec, Samples.freshRec] (by decide)⟩



